import Mathlib

/-!
Verification of the update scheduler and diff engine of
`packages/outline/src/OutlineEditor.js` (the `outline` editor core).

The JavaScript source is shallowly embedded: JS `Map` objects become
association lists with `Map.set` / `Map.delete` / `Map.get` semantics,
JS object property access `nodeMap[key]` becomes an association-list
lookup returning `Option` (`none` models `undefined`), thrown `Error`s
become `Except` errors, and the single-slot microtask queue created by
`Promise.resolve().then(...)` becomes an explicit `Option ViewModel`
pending slot on the machine state, discharged by an explicit
`fireBoundary` step.

`ViewModel`, `createViewModel`, `updateViewModel` and the concrete node
classes live in other modules of the repository (`OutlineView.js`,
`nodes/...`) that are not part of the sampled source; the definitions
below that depend on them are modelled from the specification and say so
in their doc comments.
-/

namespace Outline

/-- A node key: a stable string identifier for a node. -/
abbrev NodeKey := String

/-- A document node record as far as this core observes it: a stable key
and a type tag.  The attribute semantics of concrete node classes are
external to the core. -/
structure Node where
  key : NodeKey
  nodeType : String
  deriving DecidableEq, Repr

/-- A selection descriptor, opaque to this core beyond anchor/focus keys
and offsets. -/
structure Selection where
  anchorKey : NodeKey
  anchorOffset : Nat
  focusKey : NodeKey
  focusOffset : Nat
  deriving DecidableEq, Repr

/-- A presentation (DOM) element handle, opaque to this core. -/
abbrev DOMElement := Nat

/-- Association-list lookup modelling JS object property access
`obj[key]` and `Map.get(key)`: `none` models `undefined`. -/
def jsGet {β : Type} (m : List (String × β)) (k : String) : Option β :=
  match m with
  | [] => none
  | (k1, v) :: rest => if k1 = k then some v else jsGet rest k

/-- JS `Map.set(k, v)` / property assignment on an object with unique
keys: overwrite in place when the key exists, append otherwise. -/
def jsSet {β : Type} (m : List (String × β)) (k : String) (v : β) :
    List (String × β) :=
  match m with
  | [] => [(k, v)]
  | (k1, v1) :: rest =>
      if k1 = k then (k, v) :: rest else (k1, v1) :: jsSet rest k v

/-- JS `Map.delete(k)` on a map with unique keys: remove the entry bound
to `k`, leave every other entry in place. -/
def jsDelete {β : Type} (m : List (String × β)) (k : String) :
    List (String × β) :=
  m.filter (fun p => p.1 ≠ k)

/-- A ViewModel snapshot (class `ViewModel` of `OutlineView.js`): a node
mapping, a selection, and two nullable dirty sets.  JS `Set` objects are
embedded as lists of keys in iteration (insertion) order; `null` dirty
tracking is `none`. -/
structure ViewModel where
  nodeMap : List (NodeKey × Node)
  selection : Option Selection
  dirtyNodes : Option (List NodeKey)
  dirtySubTrees : Option (List NodeKey)
  timeStamp : Nat
  deriving DecidableEq, Repr

/-- The diff record type `ViewModelDiffType` returned by
`getDiffFromViewModel`.  An entry of `nodes` is `none` when the dirty
key was absent from `nodeMap` (JS `undefined`). -/
structure ViewModelDiff where
  dirtySubTrees : List NodeKey
  nodes : List (Option Node)
  selection : Option Selection
  timeStamp : Nat
  deriving DecidableEq, Repr

/-- The tags of registered node classes.  The five baseline classes are
imported from `nodes/...` modules outside the sampled source; a custom
class is opaque beyond its identity. -/
inductive NodeClass where
  | block
  | text
  | body
  | paragraph
  | header
  | custom (id : Nat)
  deriving DecidableEq, Repr

/-- The `OutlineEditor` instance state: the fields set by the
constructor of class `OutlineEditor`. -/
structure OutlineEditor where
  editorElement : DOMElement
  viewModel : ViewModel
  isUpdating : Bool
  keyToDOMMap : List (NodeKey × DOMElement)
  hasOnChange : Bool
  textTransforms : List Nat
  registeredNodeTypes : List (String × NodeClass)
  deriving DecidableEq, Repr

/-- The `OutlineEditor` constructor: stores the editor element, the
initial view model and the onChange callback (embedded as a presence
flag), starts not updating with an empty key-to-element map and an empty
transform set, and pre-populates the node-type registry with the five
baseline entries in source order. -/
def OutlineEditor.construct (editorElement : DOMElement)
    (viewModel : ViewModel) (hasOnChange : Bool) : OutlineEditor :=
  { editorElement := editorElement
    viewModel := viewModel
    isUpdating := false
    keyToDOMMap := []
    hasOnChange := hasOnChange
    textTransforms := []
    registeredNodeTypes :=
      [("block", NodeClass.block), ("text", NodeClass.text),
       ("body", NodeClass.body), ("paragraph", NodeClass.paragraph),
       ("header", NodeClass.header)] }

/-- Method `isUpdating`. -/
def OutlineEditor.isUpdatingFn (e : OutlineEditor) : Bool :=
  e.isUpdating

/-- Method `getCurrentViewModel`. -/
def OutlineEditor.getCurrentViewModel (e : OutlineEditor) : ViewModel :=
  e.viewModel

/-- Method `getEditorElement`. -/
def OutlineEditor.getEditorElement (e : OutlineEditor) : DOMElement :=
  e.editorElement

/-- Method `addNodeType`: registers `klass` under `nodeType`
(insert-or-overwrite via `Map.set`).  The returned unregister capability
is embedded separately as `unregisterNodeType`. -/
def OutlineEditor.addNodeType (e : OutlineEditor) (nodeType : String)
    (klass : NodeClass) : OutlineEditor :=
  { e with registeredNodeTypes := jsSet e.registeredNodeTypes nodeType klass }

/-- The capability returned by `addNodeType`: deletes the `nodeType`
entry from the registry (`Map.delete`). -/
def OutlineEditor.unregisterNodeType (e : OutlineEditor)
    (nodeType : String) : OutlineEditor :=
  { e with registeredNodeTypes := jsDelete e.registeredNodeTypes nodeType }

/-- Method `getElementByKey`: the element bound to `key` in
`_keyToDOMMap`, or the thrown lookup error when the key is unbound. -/
def OutlineEditor.getElementByKey (e : OutlineEditor) (key : NodeKey) :
    Except String DOMElement :=
  match jsGet e.keyToDOMMap key with
  | none => Except.error ("getElementByKey failed for key " ++ key)
  | some element => Except.ok element

/-- Method `getDiffFromViewModel`.  `now` is the instant `Date.now()`
returns at the capture point.  Throws when either dirty set is null;
otherwise realizes `dirtyNodes` in iteration order through
`nodeMap[nodeKey]` lookups. -/
def OutlineEditor.getDiffFromViewModel (viewModel : ViewModel)
    (now : Nat) : Except String ViewModelDiff :=
  match viewModel.dirtyNodes, viewModel.dirtySubTrees with
  | some dirtyNodes, some dirtySubTrees =>
      Except.ok
        { dirtySubTrees := dirtySubTrees
          nodes := dirtyNodes.map (fun nodeKey => jsGet viewModel.nodeMap nodeKey)
          selection := viewModel.selection
          timeStamp := now }
  | _, _ =>
      Except.error "getDiffFromViewModel: unable to get diff from view mode"

/-- Modelled from the spec: the external Reconciler `updateViewModel`
(in `OutlineView.js`, not part of the sampled source) patches the
presentation surface to match `viewModel` and commits it as the
editor's current ViewModel.  Element-map maintenance and the in-place
clearing of the committed model's dirty sets happen through the same
object reference and are not separately observable at this layer, so
the commit is embedded as replacing the current model. -/
def updateViewModel (viewModel : ViewModel) (e : OutlineEditor) :
    OutlineEditor :=
  { e with viewModel := viewModel }

/-- Errors thrown by `update`. -/
inductive UpdateError where
  | reentrancy
  deriving DecidableEq, Repr

/-- The editor together with the single-slot microtask queue: `pending`
holds the ViewModel captured by a scheduled
`Promise.resolve().then(...)` continuation that has not yet run. -/
structure MachineState where
  editor : OutlineEditor
  pending : Option ViewModel
  deriving DecidableEq, Repr

/-- Method `update(viewModel, forceSync)`: throw on reentrancy, no-op on
the reference-identical current model, reconcile synchronously when
`forceSync`, otherwise set `_isUpdating` and schedule the deferred
boundary. -/
def update (s : MachineState) (viewModel : ViewModel)
    (forceSync : Bool) : Except UpdateError MachineState :=
  if s.editor.isUpdating then
    Except.error UpdateError.reentrancy
  else if viewModel = s.editor.viewModel then
    Except.ok s
  else if forceSync then
    Except.ok { s with editor := updateViewModel viewModel s.editor }
  else
    Except.ok
      { editor := { s.editor with isUpdating := true }
        pending := some viewModel }

/-- The deferred microtask boundary firing: the scheduled continuation
clears `_isUpdating` and then invokes the Reconciler on the captured
ViewModel.  With nothing scheduled the boundary is a no-op. -/
def fireBoundary (s : MachineState) : MachineState :=
  match s.pending with
  | none => s
  | some viewModel =>
      { editor := updateViewModel viewModel
          { s.editor with isUpdating := false }
        pending := none }

/-- A sequence of default (deferred) updates, each issued while the
previous deferred boundary has already fired: after each `update` call
the scheduled boundary runs before the next call. -/
def runUpdates (s : MachineState) : List ViewModel →
    Except UpdateError MachineState
  | [] => Except.ok s
  | viewModel :: rest =>
      match update s viewModel false with
      | Except.error e => Except.error e
      | Except.ok s1 => runUpdates (fireBoundary s1) rest

/-- Modelled from the spec: `createBodyNode` (in
`nodes/OutlineBodyNode.js`, not part of the sampled source) creates a
freshly created root (body) node; `createOutlineEditor` binds it under
the key `body`. -/
def createBodyNode : Node :=
  { key := "body", nodeType := "body" }

/-- Modelled from the spec: the `ViewModel` constructor (in
`OutlineView.js`, not part of the sampled source) creates a snapshot
around the given body node with an empty node mapping, no selection,
and freshly created (empty, non-null) dirty sets; `createOutlineEditor`
then seeds `nodeMap` itself. -/
def ViewModel.new (_body : Node) (now : Nat) : ViewModel :=
  { nodeMap := []
    selection := none
    dirtyNodes := some []
    dirtySubTrees := some []
    timeStamp := now }

/-- Function `createOutlineEditor`: creates the body node, the initial
ViewModel, seeds `nodeMap.body`, constructs the editor, binds the root
key to the editor element, and invokes `onChange` once when it is a
function.  The second component records the ViewModels passed to
`onChange` during construction, in call order. -/
def createOutlineEditor (editorElement : DOMElement)
    (hasOnChange : Bool) (now : Nat) : OutlineEditor × List ViewModel :=
  let body := createBodyNode
  let viewModel0 := ViewModel.new body now
  let viewModel :=
    { viewModel0 with nodeMap := jsSet viewModel0.nodeMap "body" body }
  let outlineEditor :=
    OutlineEditor.construct editorElement viewModel hasOnChange
  let outlineEditor :=
    { outlineEditor with
        keyToDOMMap := jsSet outlineEditor.keyToDOMMap "body" editorElement }
  (outlineEditor, if hasOnChange then [viewModel] else [])

end Outline

namespace Outline

/-- Claim C2: for every ViewModel and every forceSync value, calling
`update` while the editor is in UpdatePending (`isUpdating()` true)
fails with the reentrancy error; the request is never queued, coalesced
or retried. -/
theorem update_reentrancy_fails (s : MachineState) (viewModel : ViewModel)
    (forceSync : Bool) (h : s.editor.isUpdating = true) :
    update s viewModel forceSync = Except.error UpdateError.reentrancy := by
  simp [update, h]

/-- Witness for C2: a concrete machine in UpdatePending rejects a
concrete update request. -/
theorem update_reentrancy_fails_witness :
    update
      { editor :=
          { OutlineEditor.construct 7 (ViewModel.new createBodyNode 0) false
              with isUpdating := true }
        pending := none }
      (ViewModel.new createBodyNode 0) false
      = Except.error UpdateError.reentrancy :=
  update_reentrancy_fails _ _ _ (by rfl)

/-- Claim C3: `update(vm, true)` issued while Idle on a non-current
ViewModel invokes the Reconciler synchronously within the call, and the
editor never enters UpdatePending: `isUpdating()` is false before,
during and after, and nothing is scheduled. -/
theorem update_forceSync_synchronous (s : MachineState)
    (viewModel : ViewModel) (h1 : s.editor.isUpdating = false)
    (h2 : viewModel ≠ s.editor.viewModel) :
    update s viewModel true
        = Except.ok { s with editor := updateViewModel viewModel s.editor }
      ∧ (updateViewModel viewModel s.editor).isUpdating = false
      ∧ (updateViewModel viewModel s.editor).viewModel = viewModel := by
  refine ⟨?_, ?_, rfl⟩
  · simp [update, h1, h2]
  · simp [updateViewModel, h1]

/-- Witness for C3: a concrete forced-sync update from Idle commits
immediately and stays Idle. -/
theorem update_forceSync_synchronous_witness :
    update
      { editor := OutlineEditor.construct 7 (ViewModel.new createBodyNode 0) false
        pending := none }
      { nodeMap := [], selection := none, dirtyNodes := some ["a"]
        dirtySubTrees := some [], timeStamp := 1 } true
      = Except.ok
          { editor := updateViewModel
              { nodeMap := [], selection := none, dirtyNodes := some ["a"]
                dirtySubTrees := some [], timeStamp := 1 }
              (OutlineEditor.construct 7 (ViewModel.new createBodyNode 0) false)
            pending := none } :=
  (update_forceSync_synchronous _ _ (by rfl) (by decide)).1

/-- Claim C4: `update(vm, forceSync)` issued while Idle with `vm`
reference-identical to the current ViewModel is a no-op: it returns
normally and the whole machine state (every editor field and the
pending slot) is unchanged. -/
theorem update_identical_noop (s : MachineState) (viewModel : ViewModel)
    (forceSync : Bool) (h1 : s.editor.isUpdating = false)
    (h2 : viewModel = s.editor.viewModel) :
    update s viewModel forceSync = Except.ok s := by
  simp [update, h1, h2]

/-- Witness for C4: a concrete update with the current ViewModel leaves
a concrete machine unchanged. -/
theorem update_identical_noop_witness :
    update
      { editor := OutlineEditor.construct 7 (ViewModel.new createBodyNode 0) false
        pending := none }
      (ViewModel.new createBodyNode 0) true
      = Except.ok
          { editor := OutlineEditor.construct 7 (ViewModel.new createBodyNode 0) false
            pending := none } :=
  update_identical_noop _ _ _ (by rfl) (by rfl)

/-- Helper: starting Idle with nothing scheduled, a sequence of default
updates interleaved with boundary firings succeeds and ends Idle with
nothing scheduled, the current ViewModel being the last of the sequence
(or the start model for the empty sequence). -/
theorem runUpdates_from_idle (vms : List ViewModel) :
    ∀ s : MachineState, s.editor.isUpdating = false → s.pending = none →
    ∃ t, runUpdates s vms = Except.ok t
      ∧ t.editor.isUpdating = false ∧ t.pending = none
      ∧ t.editor.viewModel = vms.getLastD s.editor.viewModel := by
  induction vms with
  | nil =>
      intro s h1 h2
      exact ⟨s, rfl, h1, h2, rfl⟩
  | cons vm rest ih =>
      intro s h1 h2
      by_cases hvm : vm = s.editor.viewModel
      · have hupd : update s vm false = Except.ok s := by
          simp [update, h1, hvm]
        have hfb : fireBoundary s = s := by
          simp [fireBoundary, h2]
        obtain ⟨t, ht, ht1, ht2, ht3⟩ := ih s h1 h2
        refine ⟨t, ?_, ht1, ht2, ?_⟩
        · simp only [runUpdates, hupd, hfb]
          exact ht
        · rw [List.getLastD_cons, ht3, hvm]
      · have hupd : update s vm false
            = Except.ok { editor := { s.editor with isUpdating := true }
                          pending := some vm } := by
          simp [update, h1, hvm]
        obtain ⟨t, ht, ht1, ht2, ht3⟩ :=
          ih (fireBoundary { editor := { s.editor with isUpdating := true }
                             pending := some vm }) rfl rfl
        refine ⟨t, ?_, ht1, ht2, ?_⟩
        · simp only [runUpdates, hupd]
          exact ht
        · rw [List.getLastD_cons, ht3]
          rfl

/-- Claim C1: `update(vm)` issued while Idle (with `vm` not the current
model and `forceSync` unset) succeeds leaving `isUpdating()` true for
the rest of the synchronous turn; the boundary firing first returns the
editor to Idle and only then invokes the Reconciler on `vm`, after
which `getCurrentViewModel()` is `vm`; and any sequence of such updates,
each issued while Idle, ends Idle with the last committed ViewModel
current. -/
theorem update_deferred_lifecycle (s : MachineState) (viewModel : ViewModel)
    (h0 : s.pending = none) (h1 : s.editor.isUpdating = false)
    (h2 : viewModel ≠ s.editor.viewModel) :
    (update s viewModel false
        = Except.ok { editor := { s.editor with isUpdating := true }
                      pending := some viewModel })
    ∧ ({ s.editor with isUpdating := true } : OutlineEditor).isUpdatingFn = true
    ∧ fireBoundary { editor := { s.editor with isUpdating := true }
                     pending := some viewModel }
        = { editor := updateViewModel viewModel
              { s.editor with isUpdating := false }
            pending := none }
    ∧ (fireBoundary { editor := { s.editor with isUpdating := true }
                      pending := some viewModel }).editor.isUpdatingFn = false
    ∧ (fireBoundary { editor := { s.editor with isUpdating := true }
                      pending := some viewModel }).editor.getCurrentViewModel
        = viewModel
    ∧ (∀ vms : List ViewModel, ∃ t, runUpdates s vms = Except.ok t
        ∧ t.editor.isUpdatingFn = false
        ∧ t.editor.getCurrentViewModel = vms.getLastD s.editor.viewModel) := by
  refine ⟨?_, rfl, rfl, rfl, rfl, ?_⟩
  · simp [update, h1, h2]
  · intro vms
    obtain ⟨t, ht, ht1, _, ht3⟩ := runUpdates_from_idle vms s h1 h0
    exact ⟨t, ht, ht1, ht3⟩

/-- Witness for C1: a concrete one-element sequence of deferred updates
from an Idle machine ends Idle with the submitted ViewModel current. -/
theorem update_deferred_lifecycle_witness :
    ∃ t,
      runUpdates
        { editor := OutlineEditor.construct 7 (ViewModel.new createBodyNode 0) false
          pending := none }
        [{ nodeMap := [], selection := none, dirtyNodes := some ["x"]
           dirtySubTrees := some [], timeStamp := 1 }]
        = Except.ok t
      ∧ t.editor.isUpdatingFn = false
      ∧ t.editor.getCurrentViewModel
          = List.getLastD
              [{ nodeMap := [], selection := none, dirtyNodes := some ["x"]
                 dirtySubTrees := some [], timeStamp := 1 }]
              (OutlineEditor.construct 7 (ViewModel.new createBodyNode 0)
                false).viewModel :=
  (update_deferred_lifecycle
      { editor := OutlineEditor.construct 7 (ViewModel.new createBodyNode 0) false
        pending := none }
      { nodeMap := [], selection := none, dirtyNodes := some ["x"]
        dirtySubTrees := some [], timeStamp := 1 }
      (by rfl) (by rfl) (by decide)).2.2.2.2.2
    [{ nodeMap := [], selection := none, dirtyNodes := some ["x"]
       dirtySubTrees := some [], timeStamp := 1 }]

/-- Claim C5: diffing a pending ViewModel (both dirty sets non-null)
returns the record whose `dirtySubTrees` is the model's dirty-subtree
set, whose `selection` is the model's selection, whose `nodes` realizes
the dirty keys in iteration order by lookup in the model's `nodeMap`,
and whose `timeStamp` is the capture instant `now`, independent of the
model's own `timeStamp`. -/
theorem getDiffFromViewModel_pending (viewModel : ViewModel)
    (dirtyNodes dirtySubTrees : List NodeKey) (now : Nat)
    (h1 : viewModel.dirtyNodes = some dirtyNodes)
    (h2 : viewModel.dirtySubTrees = some dirtySubTrees) :
    OutlineEditor.getDiffFromViewModel viewModel now
      = Except.ok
          { dirtySubTrees := dirtySubTrees
            nodes := dirtyNodes.map (fun nodeKey => jsGet viewModel.nodeMap nodeKey)
            selection := viewModel.selection
            timeStamp := now } := by
  simp [OutlineEditor.getDiffFromViewModel, h1, h2]

/-- Witness for C5: diffing a concrete pending ViewModel with dirty keys
`a` and `b` yields exactly their Node records, at capture instant 9
despite a creation timestamp of 5. -/
theorem getDiffFromViewModel_pending_witness :
    OutlineEditor.getDiffFromViewModel
      { nodeMap := [("a", { key := "a", nodeType := "text" }),
                    ("b", { key := "b", nodeType := "paragraph" })]
        selection := none
        dirtyNodes := some ["a", "b"]
        dirtySubTrees := some ["body"]
        timeStamp := 5 } 9
      = Except.ok
          { dirtySubTrees := ["body"]
            nodes := List.map
              (fun nodeKey => jsGet
                [("a", { key := "a", nodeType := "text" }),
                 ("b", ({ key := "b", nodeType := "paragraph" } : Node))]
                nodeKey)
              ["a", "b"]
            selection := none
            timeStamp := 9 } :=
  getDiffFromViewModel_pending _ _ _ 9 (by rfl) (by rfl)

/-- Claim C6: diffing a ViewModel whose dirty tracking has been cleared
(`dirtyNodes` or `dirtySubTrees` null) always fails with the invariant
error and returns no diff record. -/
theorem getDiffFromViewModel_committed (viewModel : ViewModel) (now : Nat)
    (h : viewModel.dirtyNodes = none ∨ viewModel.dirtySubTrees = none) :
    OutlineEditor.getDiffFromViewModel viewModel now
      = Except.error "getDiffFromViewModel: unable to get diff from view mode" := by
  rcases h with h | h
  · cases h2 : viewModel.dirtySubTrees <;>
      simp [OutlineEditor.getDiffFromViewModel, h, h2]
  · cases h1 : viewModel.dirtyNodes <;>
      simp [OutlineEditor.getDiffFromViewModel, h, h1]

/-- Witness for C6: diffing a concrete committed ViewModel fails. -/
theorem getDiffFromViewModel_committed_witness :
    OutlineEditor.getDiffFromViewModel
      { nodeMap := [("body", createBodyNode)]
        selection := none
        dirtyNodes := none
        dirtySubTrees := none
        timeStamp := 3 } 8
      = Except.error "getDiffFromViewModel: unable to get diff from view mode" :=
  getDiffFromViewModel_committed _ 8 (Or.inl (by rfl))

/-- Claim C10: `getDiffFromViewModel` never checks that dirty keys exist
in `nodeMap`: on a pending ViewModel carrying a dirty key absent from
the mapping, the call still succeeds, and the returned `nodes` carries
an undefined (`none`) entry at that key's position. -/
theorem getDiffFromViewModel_missing_key (viewModel : ViewModel)
    (dirtyNodes dirtySubTrees : List NodeKey) (key : NodeKey)
    (i : Nat) (now : Nat)
    (h1 : viewModel.dirtyNodes = some dirtyNodes)
    (h2 : viewModel.dirtySubTrees = some dirtySubTrees)
    (h3 : dirtyNodes.get? i = some key)
    (h4 : jsGet viewModel.nodeMap key = none) :
    ∃ diff, OutlineEditor.getDiffFromViewModel viewModel now = Except.ok diff
      ∧ diff.nodes.get? i = some none
      ∧ none ∈ diff.nodes := by
  refine ⟨_, getDiffFromViewModel_pending viewModel dirtyNodes dirtySubTrees now h1 h2, ?_, ?_⟩
  · rw [List.get?_map, h3]
    simp [h4]
  · have hmem : (dirtyNodes.map (fun nodeKey => jsGet viewModel.nodeMap nodeKey)).get? i
        = some none := by
      rw [List.get?_map, h3]
      simp [h4]
    exact List.get?_mem hmem

/-- Witness for C10: a concrete pending ViewModel whose dirty key `b` is
missing from `nodeMap` still diffs successfully, with an undefined entry
in second position. -/
theorem getDiffFromViewModel_missing_key_witness :
    ∃ diff,
      OutlineEditor.getDiffFromViewModel
        { nodeMap := [("a", { key := "a", nodeType := "text" })]
          selection := none
          dirtyNodes := some ["a", "b"]
          dirtySubTrees := some []
          timeStamp := 2 } 4
        = Except.ok diff
      ∧ diff.nodes.get? 1 = some none
      ∧ none ∈ diff.nodes :=
  getDiffFromViewModel_missing_key _ ["a", "b"] [] "b" 1 4
    (by rfl) (by rfl) (by rfl) (by rfl)

/-- Helper: `Map.set` binds the written key to the written value. -/
theorem jsGet_jsSet_self {β : Type} (m : List (String × β)) (k : String)
    (v : β) : jsGet (jsSet m k v) k = some v := by
  induction m with
  | nil => simp [jsSet, jsGet]
  | cons p rest ih =>
      by_cases h : p.1 = k
      · simp [jsSet, jsGet, h]
      · simp [jsSet, jsGet, h, ih]

/-- Helper: `Map.set` leaves every other key's binding unchanged. -/
theorem jsGet_jsSet_ne {β : Type} (m : List (String × β)) (k : String)
    (v : β) (k2 : String) (h : k2 ≠ k) :
    jsGet (jsSet m k v) k2 = jsGet m k2 := by
  have hks : ¬k = k2 := fun hk => h hk.symm
  induction m with
  | nil => simp [jsSet, jsGet, hks]
  | cons p rest ih =>
      obtain ⟨k1, v1⟩ := p
      by_cases hp : k1 = k
      · subst hp
        simp [jsSet, jsGet, hks]
      · simp [jsSet, jsGet, hp, ih]

/-- Helper: `Map.delete` leaves the deleted key unbound. -/
theorem jsGet_jsDelete_self {β : Type} (m : List (String × β))
    (k : String) : jsGet (jsDelete m k) k = none := by
  induction m with
  | nil => simp [jsDelete, jsGet]
  | cons p rest ih =>
      by_cases h : p.1 = k
      · simpa [jsDelete, jsGet, h] using ih
      · simpa [jsDelete, jsGet, h] using ih

/-- Helper: `Map.delete` leaves every other key's binding unchanged. -/
theorem jsGet_jsDelete_ne {β : Type} (m : List (String × β)) (k : String)
    (k2 : String) (h : k2 ≠ k) :
    jsGet (jsDelete m k) k2 = jsGet m k2 := by
  have hks : ¬k = k2 := fun hk => h hk.symm
  induction m with
  | nil => simp [jsDelete, jsGet]
  | cons p rest ih =>
      obtain ⟨k1, v1⟩ := p
      by_cases hp : k1 = k
      · subst hp
        simpa [jsDelete, jsGet, List.filter_cons, hks] using ih
      · by_cases hp2 : k1 = k2
        · simp [jsDelete, jsGet, List.filter_cons, hp, hp2, h]
        · simpa [jsDelete, jsGet, List.filter_cons, hp, hp2] using ih

/-- Helper: deleting a key twice equals deleting it once. -/
theorem jsDelete_jsDelete {β : Type} (m : List (String × β))
    (k : String) : jsDelete (jsDelete m k) k = jsDelete m k := by
  induction m with
  | nil => simp [jsDelete]
  | cons p rest ih =>
      by_cases h : p.1 = k
      · simpa [jsDelete, h] using ih
      · simpa [jsDelete, h] using ih

/-- Claim C8: `addNodeType(t, klass)` inserts or overwrites the registry
entry for `t`, touching no other entry; invoking the returned
unregister capability removes exactly that entry (no entry for `t`
remains, every other entry is untouched); invoking it a second time is
a no-op on the whole editor state. -/
theorem addNodeType_unregister (e : OutlineEditor) (t : String)
    (klass : NodeClass) :
    jsGet (e.addNodeType t klass).registeredNodeTypes t = some klass
    ∧ (∀ t2, t2 ≠ t →
        jsGet (e.addNodeType t klass).registeredNodeTypes t2
          = jsGet e.registeredNodeTypes t2)
    ∧ jsGet ((e.addNodeType t klass).unregisterNodeType t).registeredNodeTypes t
        = none
    ∧ (∀ t2, t2 ≠ t →
        jsGet ((e.addNodeType t klass).unregisterNodeType t).registeredNodeTypes t2
          = jsGet (e.addNodeType t klass).registeredNodeTypes t2)
    ∧ ((e.addNodeType t klass).unregisterNodeType t).unregisterNodeType t
        = (e.addNodeType t klass).unregisterNodeType t := by
  refine ⟨jsGet_jsSet_self _ _ _, ?_, jsGet_jsDelete_self _ _, ?_, ?_⟩
  · intro t2 h
    exact jsGet_jsSet_ne _ _ _ _ h
  · intro t2 h
    exact jsGet_jsDelete_ne _ _ _ h
  · show OutlineEditor.unregisterNodeType _ _ = _
    simp only [OutlineEditor.unregisterNodeType]
    rw [jsDelete_jsDelete]

/-- Witness for C8: registering a custom node type on a freshly
constructed editor and unregistering it leaves no custom entry while
keeping the baseline `text` entry. -/
theorem addNodeType_unregister_witness :
    jsGet (((OutlineEditor.construct 7 (ViewModel.new createBodyNode 0)
          false).addNodeType "custom" (NodeClass.custom 0)).unregisterNodeType
        "custom").registeredNodeTypes "custom" = none
    ∧ jsGet (((OutlineEditor.construct 7 (ViewModel.new createBodyNode 0)
          false).addNodeType "custom" (NodeClass.custom 0)).unregisterNodeType
        "custom").registeredNodeTypes "text"
      = jsGet ((OutlineEditor.construct 7 (ViewModel.new createBodyNode 0)
          false).addNodeType "custom" (NodeClass.custom 0)).registeredNodeTypes
        "text" :=
  ⟨(addNodeType_unregister
      (OutlineEditor.construct 7 (ViewModel.new createBodyNode 0) false)
      "custom" (NodeClass.custom 0)).2.2.1,
   (addNodeType_unregister
      (OutlineEditor.construct 7 (ViewModel.new createBodyNode 0) false)
      "custom" (NodeClass.custom 0)).2.2.2.1 "text" (by decide)⟩

/-- Claim C9: `getElementByKey(key)` returns the bound presentation
element when the key is bound in the key-to-element mapping, and
propagates the lookup error to the caller when the key is absent. -/
theorem getElementByKey_spec (e : OutlineEditor) (key : NodeKey) :
    (∀ element, jsGet e.keyToDOMMap key = some element →
      e.getElementByKey key = Except.ok element)
    ∧ (jsGet e.keyToDOMMap key = none →
      e.getElementByKey key
        = Except.error ("getElementByKey failed for key " ++ key)) := by
  constructor
  · intro element h
    simp [OutlineEditor.getElementByKey, h]
  · intro h
    simp [OutlineEditor.getElementByKey, h]

/-- Witness for C9: on a freshly created editor, the root key resolves
to the editor element and an unseen key fails with the lookup error. -/
theorem getElementByKey_spec_witness :
    (createOutlineEditor 7 true 0).1.getElementByKey "body" = Except.ok 7
    ∧ (createOutlineEditor 7 true 0).1.getElementByKey "missing"
        = Except.error ("getElementByKey failed for key " ++ "missing") :=
  ⟨(getElementByKey_spec (createOutlineEditor 7 true 0).1 "body").1 7 (by rfl),
   (getElementByKey_spec (createOutlineEditor 7 true 0).1 "missing").2 (by rfl)⟩

/-- Claim C7: constructing an editor with a root handle and a change
callback invokes the callback exactly once, with the initial ViewModel
(which is the editor's current model, before any update) whose
`nodeMap` contains exactly the single root node; and the root key is
bound to the root handle in the key-to-element mapping at
construction. -/
theorem createOutlineEditor_spec (editorElement : DOMElement) (now : Nat) :
    (createOutlineEditor editorElement true now).2
        = [(createOutlineEditor editorElement true now).1.getCurrentViewModel]
    ∧ (createOutlineEditor editorElement true now).1.getCurrentViewModel.nodeMap
        = [("body", createBodyNode)]
    ∧ jsGet (createOutlineEditor editorElement true now).1.keyToDOMMap "body"
        = some editorElement := by
  refine ⟨rfl, rfl, ?_⟩
  simp [createOutlineEditor, OutlineEditor.construct, jsSet, jsGet]

end Outline
